import Mathlib

/-!
Shallow embedding of `LEDBlink.cpp` (ESP8266 LEDBlink_IoT_SDK sample).

The machine state consists of the GPIO output register, the GPIO
output-enable register, the U0TXD pin-function multiplexer, the
file-scoped tick counter `s_Tick` (a 32-bit integer, modelled as a
natural number that wraps modulo 2^32), and the fields of the
file-scoped `os_timer_t s_Timer` that the SDK timer calls configure.
A ghost `trace` field records the sequence of hardware/SDK calls in
the order they are issued; it is history instrumentation, not part of
the machine state.
-/

namespace LEDBlink

/-- Bit mask for GPIO pin 1 (`BIT1` in the SDK headers): `1 << 1`. -/
def BIT1 : Nat := 2

/-- SDK constant selecting the GPIO function on the U0TXD pad. -/
def FUNC_GPIO1 : Nat := 3

/-- Address of the U0TXD pin-function multiplexer register. -/
def PERIPHS_IO_MUX_U0TXD_U : Nat := 0x60000818

/-- Identity of a callback function that can be registered on the timer.
The program registers exactly one, `TimerFunction`. -/
inductive Callback where
  | timerFunction
deriving DecidableEq

/-- Ghost trace events: one per hardware/SDK call issued by the program. -/
inductive Event where
  | gpioInit
  | pinFuncSelect (reg fn : Nat)
  | gpioOutputSet (setMask clearMask enableMask disableMask : Nat)
  | timerSetFn (cb : Callback) (arg : Option Nat)
  | timerArm (periodMs repeatFlag : Nat)
deriving DecidableEq

/-- The machine state visible to `LEDBlink.cpp`. -/
structure St where
  /-- GPIO output register (`GPIO_OUT_ADDRESS`), one bit per pin. -/
  gpio_out : Nat
  /-- GPIO output-enable register, one bit per pin. -/
  gpio_enable : Nat
  /-- Function selected on the U0TXD pad by `PIN_FUNC_SELECT`. -/
  mux_u0txd : Nat
  /-- `int s_Tick` — 32-bit integer, represented modulo `2^32`. -/
  s_Tick : Nat
  /-- Callback registered on `s_Timer` by `os_timer_setfn`, if any. -/
  timer_fn : Option Callback
  /-- Opaque argument registered with the callback (`NULL` = `none`). -/
  timer_arg : Option Nat
  /-- Whether `s_Timer` has been armed by `os_timer_arm`. -/
  timer_armed : Bool
  /-- Period (ms) passed to `os_timer_arm`. -/
  timer_period : Nat
  /-- Repeat flag passed to `os_timer_arm` (the C source passes `1`). -/
  timer_repeat : Nat
  /-- Ghost history of hardware/SDK calls, oldest first. -/
  trace : List Event
deriving DecidableEq

/-- Clears the bits of mask `m` in `x` (bitwise `x AND NOT m`), written
with xor/and so that it evaluates by kernel reduction on literals. -/
def maskClear (x m : Nat) : Nat := x ^^^ (x &&& m)

/-- SDK `gpio_output_set(set_mask, clear_mask, enable_mask, disable_mask)`:
sets the `set_mask` bits of the output register high, the `clear_mask`
bits low, enables the `enable_mask` pins as outputs and disables the
`disable_mask` pins (via the W1TS/W1TC latch registers). -/
def gpio_output_set (setMask clearMask enableMask disableMask : Nat) (s : St) : St :=
  { s with
    gpio_out := maskClear (s.gpio_out ||| setMask) clearMask
    gpio_enable := maskClear (s.gpio_enable ||| enableMask) disableMask
    trace := s.trace ++ [Event.gpioOutputSet setMask clearMask enableMask disableMask] }

/-- SDK `gpio_init()`: initializes the GPIO subsystem. It touches none of
the registers modelled here; only the ghost trace records the call. -/
def gpio_init (s : St) : St :=
  { s with trace := s.trace ++ [Event.gpioInit] }

/-- SDK `PIN_FUNC_SELECT(reg, fn)`: routes function `fn` to the pad whose
multiplexer register is `reg`. The program only ever selects on the
U0TXD pad, the single mux register modelled here. -/
def PIN_FUNC_SELECT (reg fn : Nat) (s : St) : St :=
  { s with mux_u0txd := fn, trace := s.trace ++ [Event.pinFuncSelect reg fn] }

/-- SDK `os_timer_setfn(&s_Timer, cb, arg)`: registers callback `cb` with
opaque argument `arg` on the timer. -/
def os_timer_setfn (cb : Callback) (arg : Option Nat) (s : St) : St :=
  { s with timer_fn := some cb, timer_arg := arg
           trace := s.trace ++ [Event.timerSetFn cb arg] }

/-- SDK `os_timer_arm(&s_Timer, periodMs, repeatFlag)`: arms the timer to
fire after `periodMs` milliseconds, repeating when `repeatFlag` is nonzero. -/
def os_timer_arm (periodMs repeatFlag : Nat) (s : St) : St :=
  { s with timer_armed := true, timer_period := periodMs, timer_repeat := repeatFlag
           trace := s.trace ++ [Event.timerArm periodMs repeatFlag] }

/-- `void TimerFunction(void *arg)`: increments `s_Tick` (wrapping at the
32-bit width of `int`), then reads the GPIO output register; if `BIT1` is
set it clears the pin with `gpio_output_set(0, BIT1, BIT1, 0)`, otherwise
it sets the pin with `gpio_output_set(BIT1, 0, BIT1, 0)`. The opaque
`arg` is unused by the body. -/
def TimerFunction (arg : Option Nat) (s : St) : St :=
  let s1 := { s with s_Tick := (s.s_Tick + 1) % 2 ^ 32 }
  if s1.gpio_out &&& BIT1 ≠ 0 then
    gpio_output_set 0 BIT1 BIT1 0 s1
  else
    gpio_output_set BIT1 0 BIT1 0 s1

/-- `int user_init()`: calls `gpio_init()`, selects `FUNC_GPIO1` on the
U0TXD pad, drives the pin low and enables it as an output with
`gpio_output_set(0, BIT1, BIT1, 0)`, registers `TimerFunction` with a
`NULL` argument, arms the timer with the build-time period (repeat flag
`1`), and returns `0`.  `delayMs` stands for the build-time placeholder
`$$com.sysprogs.esp8266.ledblink.DELAYMSEC$$` substituted before
compilation. -/
def user_init (delayMs : Nat) (s : St) : St × Int :=
  let s1 := gpio_init s
  let s2 := PIN_FUNC_SELECT PERIPHS_IO_MUX_U0TXD_U FUNC_GPIO1 s1
  let s3 := gpio_output_set 0 BIT1 BIT1 0 s2
  let s4 := os_timer_setfn Callback.timerFunction none s3
  let s5 := os_timer_arm delayMs 1 s4
  (s5, 0)

/-- Logic level of a pin. -/
inductive PinLevel where
  | PIN_LOW
  | PIN_HIGH
deriving DecidableEq

/-- Logical negation of a pin level. -/
def PinLevel.neg : PinLevel → PinLevel
  | .PIN_LOW => .PIN_HIGH
  | .PIN_HIGH => .PIN_LOW

/-- Level of the designated pin (GPIO1): the `BIT1` bit of the GPIO
output register, read exactly as the C condition
`GPIO_REG_READ(GPIO_OUT_ADDRESS) & BIT1` reads it. -/
def pinLevel (s : St) : PinLevel :=
  if s.gpio_out &&& BIT1 ≠ 0 then .PIN_HIGH else .PIN_LOW

/-- The boot state: the static initializer `int s_Tick = 0` has run, the
timer is unconfigured, no calls have been traced, and the hardware
registers are at their reset values. -/
def bootState : St :=
  { gpio_out := 0, gpio_enable := 0, mux_u0txd := 0, s_Tick := 0
    timer_fn := none, timer_arg := none, timer_armed := false
    timer_period := 0, timer_repeat := 0, trace := [] }

/-! ### Helper lemmas -/

lemma maskClear_testBit (x m : Nat) (i : Nat) :
    (maskClear x m).testBit i = (x.testBit i && !(m.testBit i)) := by
  unfold maskClear
  rw [Nat.testBit_xor, Nat.testBit_land]
  cases hx : x.testBit i <;> cases hm : m.testBit i <;> rfl

lemma maskClear_zero (x : Nat) : maskClear x 0 = x := by
  unfold maskClear
  rw [Nat.and_zero, Nat.xor_zero]

lemma testBit_BIT1_of_ne {i : Nat} (h : i ≠ 1) : BIT1.testBit i = false := by
  have hb : BIT1 = 2 ^ 1 := rfl
  rw [hb]
  exact Nat.testBit_two_pow_of_ne (fun h1 => h h1.symm)

lemma testBit_BIT1_one : BIT1.testBit 1 = true := by decide

lemma land_BIT1_ne_zero (x : Nat) : (x &&& BIT1 ≠ 0) ↔ x.testBit 1 = true := by
  have hb : BIT1 = 2 ^ 1 := rfl
  rw [hb, Nat.and_two_pow]
  cases hx : x.testBit 1 <;> simp [hx]

lemma pinLevel_testBit (s : St) :
    pinLevel s = if s.gpio_out.testBit 1 then PinLevel.PIN_HIGH else PinLevel.PIN_LOW := by
  unfold pinLevel
  cases hx : s.gpio_out.testBit 1 <;> simp [land_BIT1_ne_zero, hx]

lemma TimerFunction_gpio_out (a : Option Nat) (s : St) :
    (TimerFunction a s).gpio_out =
      if s.gpio_out.testBit 1 then maskClear s.gpio_out BIT1 else s.gpio_out ||| BIT1 := by
  unfold TimerFunction gpio_output_set
  cases hx : s.gpio_out.testBit 1 <;>
    simp [land_BIT1_ne_zero, hx, maskClear_zero, Nat.or_zero]

lemma TimerFunction_testBit_one (a : Option Nat) (s : St) :
    (TimerFunction a s).gpio_out.testBit 1 = !(s.gpio_out.testBit 1) := by
  rw [TimerFunction_gpio_out]
  cases hx : s.gpio_out.testBit 1 <;>
    simp [hx, maskClear_testBit, Nat.testBit_lor, testBit_BIT1_one]

lemma TimerFunction_testBit_of_ne (a : Option Nat) (s : St) {i : Nat} (h : i ≠ 1) :
    (TimerFunction a s).gpio_out.testBit i = s.gpio_out.testBit i := by
  rw [TimerFunction_gpio_out]
  cases hx : s.gpio_out.testBit 1 <;>
    simp [hx, maskClear_testBit, Nat.testBit_lor, testBit_BIT1_of_ne h]

lemma TimerFunction_gpio_enable (a : Option Nat) (s : St) :
    (TimerFunction a s).gpio_enable = s.gpio_enable ||| BIT1 := by
  unfold TimerFunction gpio_output_set
  by_cases hx : s.gpio_out &&& BIT1 ≠ 0 <;> simp [hx, maskClear_zero]

lemma TimerFunction_s_Tick (a : Option Nat) (s : St) :
    (TimerFunction a s).s_Tick = (s.s_Tick + 1) % 2 ^ 32 := by
  unfold TimerFunction gpio_output_set
  by_cases hx : s.gpio_out &&& BIT1 ≠ 0 <;> simp [hx]

lemma TimerFunction_frame_rest (a : Option Nat) (s : St) :
    (TimerFunction a s).mux_u0txd = s.mux_u0txd ∧
    (TimerFunction a s).timer_fn = s.timer_fn ∧
    (TimerFunction a s).timer_arg = s.timer_arg ∧
    (TimerFunction a s).timer_armed = s.timer_armed ∧
    (TimerFunction a s).timer_period = s.timer_period ∧
    (TimerFunction a s).timer_repeat = s.timer_repeat := by
  unfold TimerFunction gpio_output_set
  by_cases hx : s.gpio_out &&& BIT1 ≠ 0 <;> simp [hx]

lemma iterate_testBit_one (a : Option Nat) :
    ∀ (N : Nat) (s : St),
      ((TimerFunction a)^[N] s).gpio_out.testBit 1 =
        xor (s.gpio_out.testBit 1) (decide (N % 2 = 1))
  | 0, s => by simp
  | N + 1, s => by
      rw [Function.iterate_succ_apply', TimerFunction_testBit_one,
        iterate_testBit_one a N s]
      rcases Nat.mod_two_eq_zero_or_one N with h | h <;>
        · have h2 : (N + 1) % 2 = (N % 2 + 1) % 2 := Nat.add_mod_left .. ▸ Nat.add_mod N 1 2
          cases hx : s.gpio_out.testBit 1 <;> simp [h, h2, hx]

lemma iterate_s_Tick (a : Option Nat) :
    ∀ (N : Nat) (s : St), s.s_Tick < 2 ^ 32 →
      ((TimerFunction a)^[N] s).s_Tick = (s.s_Tick + N) % 2 ^ 32
  | 0, s, h => by
      rw [Function.iterate_zero_apply, Nat.add_zero, Nat.mod_eq_of_lt h]
  | N + 1, s, h => by
      rw [Function.iterate_succ_apply', TimerFunction_s_Tick,
        iterate_s_Tick a N s h, Nat.mod_add_mod, Nat.add_assoc]

lemma user_init_gpio_out (delayMs : Nat) (s : St) :
    ((user_init delayMs s).1).gpio_out = maskClear s.gpio_out BIT1 := by
  unfold user_init os_timer_arm os_timer_setfn gpio_output_set PIN_FUNC_SELECT gpio_init
  simp [Nat.or_zero]

lemma user_init_gpio_enable (delayMs : Nat) (s : St) :
    ((user_init delayMs s).1).gpio_enable = maskClear (s.gpio_enable ||| BIT1) 0 := by
  unfold user_init os_timer_arm os_timer_setfn gpio_output_set PIN_FUNC_SELECT gpio_init
  simp

/-! ### Claim theorems -/

/-- C1: For every N, after N consecutive invocations of the periodic callback
(`TimerFunction`) starting from the state produced by `user_init`, the
designated pin's level equals `PIN_LOW` if N is even and `PIN_HIGH` if N is
odd. -/
theorem c1_pin_alternation (delayMs : Nat) (s0 : St) (N : Nat) :
    pinLevel ((TimerFunction none)^[N] (user_init delayMs s0).1) =
      if N % 2 = 0 then PinLevel.PIN_LOW else PinLevel.PIN_HIGH := by
  have h0 : ((user_init delayMs s0).1).gpio_out.testBit 1 = false := by
    rw [user_init_gpio_out]
    simp [maskClear_testBit, testBit_BIT1_one]
  rw [pinLevel_testBit, iterate_testBit_one, h0]
  rcases Nat.mod_two_eq_zero_or_one N with h | h <;> simp [h]

/-- C2 counterexample: invoked in a state where `s_Tick = 1`, `user_init`
leaves `s_Tick` at 1, not 0 — it never writes the counter — so the claim
that in every invocation state the post-state has the pin at `PIN_LOW`
and `s_Tick = 0` is false. -/
theorem c2_counterexample :
    ¬ (pinLevel (user_init 1000 { bootState with s_Tick := 1 }).1 = PinLevel.PIN_LOW ∧
       ((user_init 1000 { bootState with s_Tick := 1 }).1).s_Tick = 0) := by
  decide

/-- C2 (amended): in every state in which `user_init` is invoked, the
post-state has the designated pin at `PIN_LOW` and the tick counter
unchanged from the pre-state; in particular, invoked from the boot state
where the static initializer has set `s_Tick = 0`, the post-state has
`s_Tick = 0` before any callback runs. -/
theorem c2_user_init_post (delayMs : Nat) (s : St) :
    (pinLevel (user_init delayMs s).1 = PinLevel.PIN_LOW ∧
      ((user_init delayMs s).1).s_Tick = s.s_Tick) ∧
    ((user_init delayMs bootState).1).s_Tick = 0 := by
  refine ⟨⟨?_, rfl⟩, rfl⟩
  rw [pinLevel_testBit, user_init_gpio_out]
  simp [maskClear_testBit, testBit_BIT1_one]

/-- C3: for every starting state (with `s_Tick` in the range of a 32-bit
integer) and every N, the tick counter after N callback invocations equals
its value before the invocations plus N, modulo the 2^32 wraparound of the
underlying integer width; each single invocation increments it exactly
once. -/
theorem c3_tick_counting (a : Option Nat) (s : St) (N : Nat) (h : s.s_Tick < 2 ^ 32) :
    ((TimerFunction a)^[N] s).s_Tick = (s.s_Tick + N) % 2 ^ 32 ∧
    (TimerFunction a s).s_Tick = (s.s_Tick + 1) % 2 ^ 32 :=
  ⟨iterate_s_Tick a N s h, TimerFunction_s_Tick a s⟩

/-- C3 witness: the boot state satisfies the range hypothesis, and 100
invocations from it leave the counter at (0 + 100) mod 2^32. -/
theorem c3_witness :
    bootState.s_Tick < 2 ^ 32 ∧
    ((TimerFunction none)^[100] bootState).s_Tick = (bootState.s_Tick + 100) % 2 ^ 32 :=
  ⟨by decide, (c3_tick_counting none bootState 100 (by decide)).1⟩

/-- C4: for every state, one invocation of the periodic callback sets the
pin to the logical negation of the level it read from the hardware output
register, and any two states agreeing on the pin level — regardless of the
tick counter or any other software state — yield the same resulting pin
level. -/
theorem c4_toggle_negation (a : Option Nat) (s : St) :
    pinLevel (TimerFunction a s) = (pinLevel s).neg ∧
    ∀ t : St, pinLevel t = pinLevel s →
      pinLevel (TimerFunction a t) = pinLevel (TimerFunction a s) := by
  have key : ∀ u : St, pinLevel (TimerFunction a u) = (pinLevel u).neg := by
    intro u
    rw [pinLevel_testBit, pinLevel_testBit, TimerFunction_testBit_one]
    cases hx : u.gpio_out.testBit 1 <;> simp [hx, PinLevel.neg]
  exact ⟨key s, fun t ht => by rw [key t, key s, ht]⟩

/-- C4 witness: a state differing from the boot state only in the tick
counter produces the same pin level after one invocation. -/
theorem c4_witness :
    pinLevel (TimerFunction none { bootState with s_Tick := 7 }) =
      pinLevel (TimerFunction none bootState) :=
  (c4_toggle_negation none bootState).2 { bootState with s_Tick := 7 } (by decide)

/-- C5: `user_init` configures the U0TXD pin multiplexer to the GPIO
function, forces the pin to logic low with its output enabled, registers
`TimerFunction` (with a null argument) on the timer, and arms the timer
with the configured period and repeat flag 1; the ghost trace shows the
four hardware/SDK calls were issued in exactly that order (after
`gpio_init`). -/
theorem c5_user_init_effects (delayMs : Nat) (s : St) :
    ((user_init delayMs s).1).mux_u0txd = FUNC_GPIO1 ∧
    pinLevel (user_init delayMs s).1 = PinLevel.PIN_LOW ∧
    ((user_init delayMs s).1).gpio_enable.testBit 1 = true ∧
    ((user_init delayMs s).1).timer_fn = some Callback.timerFunction ∧
    ((user_init delayMs s).1).timer_arg = none ∧
    ((user_init delayMs s).1).timer_armed = true ∧
    ((user_init delayMs s).1).timer_period = delayMs ∧
    ((user_init delayMs s).1).timer_repeat = 1 ∧
    ((user_init delayMs s).1).trace = s.trace ++
      [Event.gpioInit,
       Event.pinFuncSelect PERIPHS_IO_MUX_U0TXD_U FUNC_GPIO1,
       Event.gpioOutputSet 0 BIT1 BIT1 0,
       Event.timerSetFn Callback.timerFunction none,
       Event.timerArm delayMs 1] := by
  refine ⟨rfl, ?_, ?_, rfl, rfl, rfl, rfl, rfl, ?_⟩
  · rw [pinLevel_testBit, user_init_gpio_out]
    simp [maskClear_testBit, testBit_BIT1_one]
  · rw [user_init_gpio_enable, maskClear_zero]
    simp [Nat.testBit_lor, testBit_BIT1_one]
  · simp [user_init, os_timer_arm, os_timer_setfn, gpio_output_set, PIN_FUNC_SELECT, gpio_init]

/-- C6: `user_init` returns the integer status code 0 in every state and
for every configured period; it has no failure path. -/
theorem c6_user_init_returns_zero (delayMs : Nat) (s : St) :
    (user_init delayMs s).2 = 0 := rfl

/-- C7 counterexample: at the boot state, one invocation of the periodic
callback changes the tick counter and the output-enable register, so the
toggled pin level is not its only observable effect on the system state. -/
theorem c7_counterexample :
    (TimerFunction none bootState).s_Tick ≠ bootState.s_Tick ∧
    (TimerFunction none bootState).gpio_enable ≠ bootState.gpio_enable := by
  decide

/-- C7 (amended): the periodic callback returns no value; its effects on
the machine state are exactly toggling the `BIT1` level of the GPIO output
register, asserting `BIT1` of the output-enable register, and incrementing
the tick counter modulo 2^32 — the pin multiplexer, the timer
configuration, and every other bit of the output and enable registers are
unchanged. -/
theorem c7_callback_frame (a : Option Nat) (s : St) :
    (TimerFunction a s).s_Tick = (s.s_Tick + 1) % 2 ^ 32 ∧
    (TimerFunction a s).gpio_out.testBit 1 = !(s.gpio_out.testBit 1) ∧
    (TimerFunction a s).gpio_enable.testBit 1 = true ∧
    (TimerFunction a s).mux_u0txd = s.mux_u0txd ∧
    (TimerFunction a s).timer_fn = s.timer_fn ∧
    (TimerFunction a s).timer_arg = s.timer_arg ∧
    (TimerFunction a s).timer_armed = s.timer_armed ∧
    (TimerFunction a s).timer_period = s.timer_period ∧
    (TimerFunction a s).timer_repeat = s.timer_repeat ∧
    ∀ i : Nat, i ≠ 1 →
      (TimerFunction a s).gpio_out.testBit i = s.gpio_out.testBit i ∧
      (TimerFunction a s).gpio_enable.testBit i = s.gpio_enable.testBit i := by
  obtain ⟨h1, h2, h3, h4, h5, h6⟩ := TimerFunction_frame_rest a s
  refine ⟨TimerFunction_s_Tick a s, TimerFunction_testBit_one a s, ?_,
    h1, h2, h3, h4, h5, h6, ?_⟩
  · rw [TimerFunction_gpio_enable]
    simp [Nat.testBit_lor, testBit_BIT1_one]
  · intro i hi
    refine ⟨TimerFunction_testBit_of_ne a s hi, ?_⟩
    rw [TimerFunction_gpio_enable]
    simp [Nat.testBit_lor, testBit_BIT1_of_ne hi]

/-- C7 witness: bit 0 of both GPIO registers is untouched by one
invocation at the boot state. -/
theorem c7_witness :
    (0 : Nat) ≠ 1 ∧
    (TimerFunction none bootState).gpio_out.testBit 0 = bootState.gpio_out.testBit 0 ∧
    (TimerFunction none bootState).gpio_enable.testBit 0 = bootState.gpio_enable.testBit 0 :=
  ⟨by decide, (c7_callback_frame none bootState).2.2.2.2.2.2.2.2.2 0 (by decide)⟩

/-- C8: for any two values of the opaque argument pointer (including
null), invoking the periodic callback from the same starting state
produces identical resulting states: its behaviour is independent of the
argument. -/
theorem c8_arg_independent (a b : Option Nat) (s : St) :
    TimerFunction a s = TimerFunction b s := rfl

/-- C9: both the periodic callback and `user_init` write only bit 1 of the
GPIO output register and its output-enable — every other bit of both
registers is unchanged — and the `gpio_output_set` call issued by the
callback uses set/clear masks restricted to {0, BIT1}, enable mask `BIT1`
and a zero disable mask. -/
theorem c9_only_bit1 (a : Option Nat) (delayMs : Nat) (s : St) (i : Nat) (h : i ≠ 1) :
    (TimerFunction a s).gpio_out.testBit i = s.gpio_out.testBit i ∧
    (TimerFunction a s).gpio_enable.testBit i = s.gpio_enable.testBit i ∧
    ((user_init delayMs s).1).gpio_out.testBit i = s.gpio_out.testBit i ∧
    ((user_init delayMs s).1).gpio_enable.testBit i = s.gpio_enable.testBit i ∧
    ∃ setMask clearMask, (setMask = 0 ∨ setMask = BIT1) ∧
      (clearMask = 0 ∨ clearMask = BIT1) ∧
      (TimerFunction a s).trace = s.trace ++ [Event.gpioOutputSet setMask clearMask BIT1 0] := by
  refine ⟨TimerFunction_testBit_of_ne a s h, ?_, ?_, ?_, ?_⟩
  · rw [TimerFunction_gpio_enable]
    simp [Nat.testBit_lor, testBit_BIT1_of_ne h]
  · rw [user_init_gpio_out]
    simp [maskClear_testBit, testBit_BIT1_of_ne h]
  · rw [user_init_gpio_enable, maskClear_zero]
    simp [Nat.testBit_lor, testBit_BIT1_of_ne h]
  · by_cases hx : s.gpio_out &&& BIT1 ≠ 0
    · exact ⟨0, BIT1, Or.inl rfl, Or.inr rfl, by simp [TimerFunction, gpio_output_set, hx]⟩
    · exact ⟨BIT1, 0, Or.inr rfl, Or.inl rfl, by simp [TimerFunction, gpio_output_set, hx]⟩

/-- C9 witness: in a state with GPIO bits 0 and 5 set, bit 5 of the output
register survives one callback invocation unchanged. -/
theorem c9_witness :
    (5 : Nat) ≠ 1 ∧
    (TimerFunction none { bootState with gpio_out := 33 }).gpio_out.testBit 5 =
      ({ bootState with gpio_out := 33 } : St).gpio_out.testBit 5 :=
  ⟨by decide, (c9_only_bit1 none 1000 { bootState with gpio_out := 33 } 5 (by decide)).1⟩

/-- C10: `user_init` never writes the tick counter: for every state and
every configured period, `s_Tick` after `user_init` returns equals its
value before the call. -/
theorem c10_user_init_preserves_tick (delayMs : Nat) (s : St) :
    ((user_init delayMs s).1).s_Tick = s.s_Tick := rfl

end LEDBlink
